import Mathlib

/-!
# Verification of the aquaia forecasting / risk-recommendation core

Shallow embedding of `src/api/services/recomendacion.py` and
`src/api/services/prediction.py`.  Real-valued quantities are modelled as
rationals (`ℚ`); Python's float arithmetic on these code paths is plain
field arithmetic, comparisons and `min`/`max`.  Lean's division on `ℚ` is
total (division by zero yields 0); wherever a claim touches a possibly-zero
divisor we state the property about the divisor expression itself.
Missing values (`None` / `NaN`) are modelled as `Option ℚ`.
-/

set_option autoImplicit false

namespace Aquaia

/-- Risk levels, mirroring the `NivelRiesgo` enum
(`BAJO`, `MODERADO`, `ALTO`, `SEQUIA`). -/
inductive NivelRiesgo where
  | BAJO
  | MODERADO
  | ALTO
  | SEQUIA
deriving DecidableEq

/-- Level trend, mirroring the `TendenciaNivel` enum. -/
inductive Tendencia where
  | SUBIENDO
  | BAJANDO
  | ESTABLE
deriving DecidableEq

/-- Effective per-station configuration row, as returned by
`obtener_configuracion_embalse` (either the DB row or the hard defaults). -/
structure Config where
  umbral_alto_relativo : ℚ
  umbral_moderado_relativo : ℚ
  umbral_minimo_relativo : ℚ
  horizonte_dias : ℕ
  k_sigma : ℚ
  prob_umbral_moderado : ℚ
  prob_umbral_alto : ℚ
deriving DecidableEq

/-- The hard default configuration built in
`obtener_configuracion_embalse` when no station row exists
(`umbral_alto_relativo = 0.95`, `umbral_moderado_relativo = 0.80`,
`umbral_minimo_relativo = 0.30`, `horizonte_dias = 7`, `k_sigma = 2.0`,
`prob_umbral_moderado = 0.30`, `prob_umbral_alto = 0.50`). -/
def configPorDefecto : Config :=
  { umbral_alto_relativo := 95/100
    umbral_moderado_relativo := 80/100
    umbral_minimo_relativo := 30/100
    horizonte_dias := 7
    k_sigma := 2
    prob_umbral_moderado := 30/100
    prob_umbral_alto := 50/100 }

/-- `RecomendacionService.obtener_configuracion_embalse`: the DB lookup
(`obtener_config_embalse`) is modelled as an abstract store
`String → Option Config`; when the store has a row it is returned as-is,
otherwise the hard defaults are returned. -/
def obtener_configuracion_embalse (store : String → Option Config)
    (codigo_saih : String) : Config :=
  match store codigo_saih with
  | some cfg => cfg
  | none => configPorDefecto

/-- Metrics computed by `_calcular_metricas_prediccion`. -/
structure Metricas where
  nivel_actual : ℚ
  nivel_min : ℚ
  nivel_max : ℚ
  nivel_medio : ℚ
  nivel_max_esperado : ℚ
  nivel_min_esperado : ℚ
  mae : Option ℚ
  tendencia : Tendencia
  serie_prediccion : List ℚ
deriving DecidableEq

/-- `np.min` over a nonempty list (the caller guards against empty input). -/
def npMin : List ℚ → ℚ
  | [] => 0
  | x :: xs => xs.foldl min x

/-- `np.max` over a nonempty list. -/
def npMax : List ℚ → ℚ
  | [] => 0
  | x :: xs => xs.foldl max x

/-- `np.mean` over a nonempty list. -/
def npMean (l : List ℚ) : ℚ := l.sum / l.length

/-- `_calcular_tendencia`: compares the final track value against the
current level with a deadband of 2% of the current level. -/
def calcular_tendencia (serie : List ℚ) (nivel_actual : ℚ) : Tendencia :=
  let nivel_final := serie.getLastD 0
  let diferencia := nivel_final - nivel_actual
  let umbral_estable := |nivel_actual * (2/100)|
  if |diferencia| ≤ umbral_estable then Tendencia.ESTABLE
  else if 0 < diferencia then Tendencia.SUBIENDO
  else Tendencia.BAJANDO

/-- `_calcular_metricas_prediccion` restricted to its computational core:
given the operational prediction series (already extracted), the resolved
current level and the optional historical MAE, computes the statistics and
the uncertainty-expanded band.  Returns `none` when the series is empty
(the Python raises `ValueError` there).  Note the Python guard `if mae:`
is falsy both for `None` and for `0.0`. -/
def calcular_metricas_prediccion (pred_serie : List ℚ) (nivel_actual : ℚ)
    (mae : Option ℚ) (config : Config) : Option Metricas :=
  match pred_serie with
  | [] => none
  | x :: xs =>
    let nivel_min := npMin (x :: xs)
    let nivel_max := npMax (x :: xs)
    let nivel_medio := npMean (x :: xs)
    let k_sigma := config.k_sigma
    let banda :=
      match mae with
      | some m =>
        if m = 0 then (nivel_max, nivel_min)
        else (nivel_max + k_sigma * m, nivel_min - k_sigma * m)
      | none => (nivel_max, nivel_min)
    some
      { nivel_actual := nivel_actual
        nivel_min := nivel_min
        nivel_max := nivel_max
        nivel_medio := nivel_medio
        nivel_max_esperado := banda.1
        nivel_min_esperado := banda.2
        mae := mae
        tendencia := calcular_tendencia (x :: xs) nivel_actual
        serie_prediccion := x :: xs }

/-- Threshold-crossing direction (`direccion` parameter of
`_calcular_dias_hasta_umbral`): `alto` searches for values at or above
the threshold, `bajo` for values at or below it. -/
inductive Direccion where
  | alto
  | bajo
deriving DecidableEq

/-- One crossing test of `_calcular_dias_hasta_umbral`'s loop body. -/
def cruza (direccion : Direccion) (valor umbral : ℚ) : Bool :=
  match direccion with
  | Direccion.alto => decide (umbral ≤ valor)
  | Direccion.bajo => decide (valor ≤ umbral)

/-- Loop of `_calcular_dias_hasta_umbral` (`enumerate(serie, start=1)`). -/
def diasAux (direccion : Direccion) (umbral : ℚ) : List ℚ → ℕ → Option ℕ
  | [], _ => none
  | v :: vs, dia =>
    if cruza direccion v umbral then some dia
    else diasAux direccion umbral vs (dia + 1)

/-- `_calcular_dias_hasta_umbral`: first (1-based) day whose value crosses
the threshold in the given direction, `none` if never crossed. -/
def calcular_dias_hasta_umbral (serie : List ℚ) (umbral : ℚ)
    (direccion : Direccion) : Option ℕ :=
  diasAux direccion umbral serie 1

/-- Result record of `_clasificar_riesgo`. -/
structure Clasificacion where
  nivel_riesgo : NivelRiesgo
  nivel_severidad : ℕ
  color_hex : String
  probabilidad_superar : ℚ
  dias_hasta_umbral : Option ℕ
  umbral_alto : ℚ
  umbral_moderado : ℚ
  umbral_minimo : ℚ
deriving DecidableEq

/-- Divisor of the HIGH-branch probability in `_clasificar_riesgo`:
`nivel_maximo - umbral_alto`. -/
def divisorAlto (config : Config) (nivel_maximo : ℚ) : ℚ :=
  nivel_maximo - config.umbral_alto_relativo * nivel_maximo

/-- Divisor of the MODERATE-branch probability in `_clasificar_riesgo`:
`umbral_alto - umbral_moderado`. -/
def divisorModerado (config : Config) (nivel_maximo : ℚ) : ℚ :=
  config.umbral_alto_relativo * nivel_maximo
    - config.umbral_moderado_relativo * nivel_maximo

/-- Divisor of the DROUGHT-branch probability in `_clasificar_riesgo`:
`umbral_minimo` itself. -/
def divisorMinimo (config : Config) (nivel_maximo : ℚ) : ℚ :=
  config.umbral_minimo_relativo * nivel_maximo

/-- `_clasificar_riesgo`: priority classification
ALTO, then SEQUIA, then MODERADO, else BAJO, with the clamped breach
probability `min(1.0, ...)` of each non-BAJO branch. -/
def clasificar_riesgo (metricas : Metricas) (config : Config)
    (nivel_maximo : ℚ) : Clasificacion :=
  let umbral_alto := config.umbral_alto_relativo * nivel_maximo
  let umbral_moderado := config.umbral_moderado_relativo * nivel_maximo
  let umbral_minimo := config.umbral_minimo_relativo * nivel_maximo
  let nivel_max_esp := metricas.nivel_max_esperado
  let nivel_min_esp := metricas.nivel_min_esperado
  if umbral_alto ≤ nivel_max_esp then
    { nivel_riesgo := NivelRiesgo.ALTO
      nivel_severidad := 3
      color_hex := "#FF5722"
      probabilidad_superar :=
        min 1 ((nivel_max_esp - umbral_alto) / divisorAlto config nivel_maximo)
      dias_hasta_umbral :=
        calcular_dias_hasta_umbral metricas.serie_prediccion umbral_alto
          Direccion.alto
      umbral_alto := umbral_alto
      umbral_moderado := umbral_moderado
      umbral_minimo := umbral_minimo }
  else if nivel_min_esp ≤ umbral_minimo then
    { nivel_riesgo := NivelRiesgo.SEQUIA
      nivel_severidad := 4
      color_hex := "#795548"
      probabilidad_superar :=
        min 1 ((umbral_minimo - nivel_min_esp) / divisorMinimo config nivel_maximo)
      dias_hasta_umbral :=
        calcular_dias_hasta_umbral metricas.serie_prediccion umbral_minimo
          Direccion.bajo
      umbral_alto := umbral_alto
      umbral_moderado := umbral_moderado
      umbral_minimo := umbral_minimo }
  else if umbral_moderado ≤ nivel_max_esp then
    { nivel_riesgo := NivelRiesgo.MODERADO
      nivel_severidad := 2
      color_hex := "#FFC107"
      probabilidad_superar :=
        min 1 ((nivel_max_esp - umbral_moderado) / divisorModerado config nivel_maximo)
      dias_hasta_umbral :=
        calcular_dias_hasta_umbral metricas.serie_prediccion umbral_moderado
          Direccion.alto
      umbral_alto := umbral_alto
      umbral_moderado := umbral_moderado
      umbral_minimo := umbral_minimo }
  else
    { nivel_riesgo := NivelRiesgo.BAJO
      nivel_severidad := 1
      color_hex := "#4CAF50"
      probabilidad_superar := 0
      dias_hasta_umbral := none
      umbral_alto := umbral_alto
      umbral_moderado := umbral_moderado
      umbral_minimo := umbral_minimo }

/-! ## Text generation (`_generar_textos_basicos`)

Python's f-string float formatting (`:.1f`, `:.2f`) is abstracted by the
`ToString` instance on `ℚ`; the claims about these texts do not depend on
the digit rendering.  The enum values are the DB strings dispatched on by
the Python (`ALTO`, `MODERADO`, `SEQUIA`, else `BAJO`). -/

/-- The `TendenciaNivel.value` strings. -/
def tendenciaStr : Tendencia → String
  | Tendencia.SUBIENDO => "subiendo"
  | Tendencia.BAJANDO => "bajando"
  | Tendencia.ESTABLE => "estable"

/-- `_generar_textos_basicos`: canned (motivo, accion) text pair per risk
level, used when the template store yields no match.  Follows the Python
branch structure; `mae` is `metricas.get('mae') or 0.0`. -/
def generar_textos_basicos (nivel_riesgo : NivelRiesgo) (metricas : Metricas)
    (nivel_maximo : ℚ) (horizonte : ℕ) (porcentaje : ℚ) : String × String :=
  let nivel_pred := metricas.nivel_medio
  let mae := (metricas.mae).getD 0
  match nivel_riesgo with
  | NivelRiesgo.ALTO =>
    ("El nivel predicho alcanzará " ++ toString porcentaje
        ++ "% de la capacidad máxima (" ++ toString nivel_maximo
        ++ " hm³) en los próximos " ++ toString horizonte
        ++ " días, con nivel esperado de " ++ toString nivel_pred
        ++ " hm³. MAE histórico: " ++ toString mae ++ " hm³.",
      "URGENTE: Planificar desembalses preventivos. Coordinar con organismos de cuenca. "
        ++ "Activar protocolos de emergencia y sistema de alertas.")
  | NivelRiesgo.MODERADO =>
    ("El nivel predicho se situará en " ++ toString porcentaje
        ++ "% de capacidad (" ++ toString nivel_pred
        ++ " hm³) dentro de " ++ toString horizonte
        ++ " días. Tendencia: " ++ tendenciaStr metricas.tendencia
        ++ ". Incertidumbre: ±" ++ toString mae ++ " hm³.",
      "Incrementar frecuencia de monitoreo. Evaluar desembalses graduales. "
        ++ "Revisar pronósticos meteorológicos.")
  | NivelRiesgo.SEQUIA =>
    ("El nivel predicho descenderá a " ++ toString porcentaje
        ++ "% de capacidad (" ++ toString nivel_pred
        ++ " hm³) en " ++ toString horizonte
        ++ " días. Riesgo de insuficiencia hídrica.",
      "CRÍTICO: Activar protocolos de escasez. Implementar restricciones de uso. "
        ++ "Evaluar fuentes alternativas de suministro.")
  | NivelRiesgo.BAJO =>
    ("El nivel predicho se mantendrá en " ++ toString porcentaje
        ++ "% de capacidad (" ++ toString nivel_pred
        ++ " hm³), dentro del rango óptimo operativo.",
      "Continuar con monitoreo estándar. Nivel estable y seguro. "
        ++ "No se requieren acciones especiales.")

/-! ## Forecasting core (`src/api/services/prediction.py`)

`hist_cols = ['nivel', 'precipitacion', 'temperatura', 'caudal_promedio']`,
so a record carries four optional feature values (missing = `NaN`, filled
with 0 by `_build_window`).  Dates are modelled as integers (day numbers).
The pretrained `LSTMSeq2Seq` is a pure function of its fixed weights, so it
enters the embedding as an abstract function from the input window to the
normalized output sequence.  `np.random.normal` draws from the global
numpy generator; the stream of draws is determined by that generator's
state (the seed), so the noise is modelled as an explicit function
`ruido : ℕ → ℕ → ℚ` from (row, column) position to the drawn value. -/

/-- Number of base features (`len(hist_cols)`). -/
def numFeatures : ℕ := 4

/-- One daily record of a station series. -/
structure Registro where
  fecha : ℤ
  nivel : Option ℚ
  precipitacion : Option ℚ
  temperatura : Option ℚ
  caudal : Option ℚ
deriving DecidableEq

/-- The record's feature row in `hist_cols` order. -/
def Registro.valores (r : Registro) : List (Option ℚ) :=
  [r.nivel, r.precipitacion, r.temperatura, r.caudal]

/-- Per-station `MinMaxScaler` parameters (per-feature data min/max). -/
structure Escalador where
  data_min : List ℚ
  data_max : List ℚ
deriving DecidableEq

/-- `fillna(0.0)` on one feature row. -/
def fillna (vals : List (Option ℚ)) : List ℚ := vals.map (fun v => v.getD 0)

/-- `scaler.transform` on one row: per-feature `(v - min) / (max - min)`
(sklearn `MinMaxScaler` with default range (0, 1)). -/
def transformar (sc : Escalador) (vals : List ℚ) : List ℚ :=
  List.zipWith (fun v mm => (v - mm.1) / (mm.2 - mm.1)) vals
    (sc.data_min.zip sc.data_max)

/-- `scaler.inverse_transform` restricted to the `nivel` feature
(index 0 of `hist_cols`): `v * (max - min) + min`. -/
def invertirNivel (sc : Escalador) (v : ℚ) : ℚ :=
  v * (sc.data_max.headD 0 - sc.data_min.headD 0) + sc.data_min.headD 0

/-- Inference scenario (`mode` parameter of `_build_window`). -/
inductive Modo where
  | hist
  | aemet_ruido
deriving DecidableEq

/-- `DataFrame.tail(n)`: the last `n` elements. -/
def colaN {α : Type} (n : ℕ) (l : List α) : List α := l.drop (l.length - n)

/-- Insertion step of the stable sort by date (`sort_values('fecha')`). -/
def insertarPorFecha (r : Registro) : List Registro → List Registro
  | [] => [r]
  | s :: ss =>
    if r.fecha ≤ s.fecha then r :: s :: ss else s :: insertarPorFecha r ss

/-- `sort_values('fecha')` (ascending; dates are unique per the series
invariant, so stability is irrelevant). -/
def ordenarPorFecha : List Registro → List Registro
  | [] => []
  | r :: rs => insertarPorFecha r (ordenarPorFecha rs)

/-- `np.clip(x, 0.0, 1.0)`. -/
def clip01 (q : ℚ) : ℚ := min 1 (max 0 q)

/-- Adds the Gaussian draws to the normalized future block and clips:
`np.clip(fut_vals + noise, 0.0, 1.0)`; `ruido i j` is the draw for row
`i`, column `j`. -/
def matrizConRuido (ruido : ℕ → ℕ → ℚ) (filas : List (List ℚ)) :
    List (List ℚ) :=
  List.zipWith
    (fun i fila =>
      List.zipWith (fun j v => clip01 (v + ruido i j))
        (List.range fila.length) fila)
    (List.range filas.length) filas

/-- Column-wise mean (`.mean(axis=0)`) over `ncols` columns. -/
def mediaColumnas (filas : List (List ℚ)) (ncols : ℕ) : List ℚ :=
  (List.range ncols).map
    (fun j => (filas.map (fun fila => fila.getD j 0)).sum / filas.length)

/-- The `InsufficientHistory` message raised inside `_build_window`. -/
def mensajeHistInsuficiente (fecha : ℤ) (lookback n : ℕ) : String :=
  "No hay suficientes datos previos a " ++ toString fecha
    ++ ". Se requieren " ++ toString lookback ++ " dias, solo hay "
    ++ toString n

/-- The `UnknownStation` message raised in `predecir_embalse`. -/
def mensajeSinEscalador (codigo_saih : String) : String :=
  "No hay scaler para el embalse " ++ codigo_saih

/-- The `DateTooEarly` message raised in `predecir_embalse`. -/
def mensajeFechaTemprana (fecha minValida : ℤ) : String :=
  "Fecha " ++ toString fecha
    ++ " es demasiado temprana. Primera fecha valida: " ++ toString minValida

/-- `_build_window`: selects the last `lookback` records with date ≤ the
anchor (raising `InsufficientHistory` when fewer exist), normalizes them,
builds the future summary for the scenario (all-zero for `hist`; for
`aemet_ruido` the noisy clipped per-feature mean of the next `horizonte`
records when at least `horizonte` exist, else all-zero), tiles the summary
and concatenates it column-wise to every historical row. -/
def construir_ventana (df_est : List Registro) (fecha : ℤ) (sc : Escalador)
    (modo : Modo) (horizonte lookback : ℕ) (ruido : ℕ → ℕ → ℚ) :
    Except String (List (List ℚ)) :=
  let df_hist := colaN lookback (df_est.filter (fun r => r.fecha ≤ fecha))
  if df_hist.length < lookback then
    Except.error (mensajeHistInsuficiente fecha lookback df_hist.length)
  else
    let hist_vals := df_hist.map (fun r => transformar sc (fillna r.valores))
    let df_fut :=
      (ordenarPorFecha (df_est.filter (fun r => fecha < r.fecha))).take
        horizonte
    let fut_summary :=
      match modo with
      | Modo.hist => List.replicate numFeatures (0 : ℚ)
      | Modo.aemet_ruido =>
        if horizonte ≤ df_fut.length then
          let fut_vals := df_fut.map (fun r => transformar sc (fillna r.valores))
          mediaColumnas (matrizConRuido ruido fut_vals) numFeatures
        else
          List.replicate numFeatures (0 : ℚ)
    Except.ok (hist_vals.map (fun fila => fila ++ fut_summary))

/-- Output frame of `predecir_embalse` (columns `fecha`, `pred_hist`,
`pred`, `nivel_real`). -/
structure ResultadoPrediccion where
  fechas : List ℤ
  pred_hist : List ℚ
  pred : List ℚ
  nivel_real : List (Option ℚ)
deriving DecidableEq

/-- `df['fecha'].min()` (`none` on an empty frame, where the pandas
comparison with `NaT` is false and the date check passes vacuously). -/
def fechaMinima : List Registro → Option ℤ
  | [] => none
  | r :: rs => some ((rs.map Registro.fecha).foldl min r.fecha)

/-- Body of `predecir_embalse` after its validations: builds both scenario
windows, runs the model on each, keeps the first `horizonte` outputs,
denormalizes the `nivel` feature, and left-joins the observed levels on
the prediction date axis (dates are unique in a station series). -/
def predecirNucleo (modelo : List (List ℚ) → List ℚ) (sc : Escalador)
    (df_est : List Registro) (fecha : ℤ) (horizonte lookback : ℕ)
    (ruido : ℕ → ℕ → ℚ) : Except String ResultadoPrediccion := do
  let x_hist ← construir_ventana df_est fecha sc Modo.hist horizonte lookback ruido
  let x_aemet ←
    construir_ventana df_est fecha sc Modo.aemet_ruido horizonte lookback ruido
  let pred_hist := ((modelo x_hist).take horizonte).map (invertirNivel sc)
  let pred_aemet := ((modelo x_aemet).take horizonte).map (invertirNivel sc)
  let fechas := (List.range horizonte).map (fun i => fecha + i + 1)
  let nivel_real :=
    fechas.map (fun f =>
      match df_est.find? (fun r => r.fecha = f) with
      | some r => r.nivel
      | none => none)
  Except.ok
    { fechas := fechas
      pred_hist := pred_hist
      pred := pred_aemet
      nivel_real := nivel_real }

/-- `predecir_embalse`: fails with the `UnknownStation` message when the
station has no scaler, then with the `DateTooEarly` message when the anchor
precedes the earliest record plus the lookback, then delegates to the
window construction and inference (which can fail with the
`InsufficientHistory` message). -/
def predecir_embalse (modelo : List (List ℚ) → List ℚ)
    (escaladores : String → Option Escalador) (df_est : List Registro)
    (codigo_saih : String) (fecha : ℤ) (horizonte lookback : ℕ)
    (ruido : ℕ → ℕ → ℚ) : Except String ResultadoPrediccion :=
  match escaladores codigo_saih with
  | none => Except.error (mensajeSinEscalador codigo_saih)
  | some sc =>
    match fechaMinima df_est with
    | some m =>
      if fecha < m + lookback then
        Except.error (mensajeFechaTemprana fecha (m + lookback))
      else predecirNucleo modelo sc df_est fecha horizonte lookback ruido
    | none => predecirNucleo modelo sc df_est fecha horizonte lookback ruido

/-! ## Auxiliary concrete data used to instantiate theorems -/

/-- Concrete metrics record with prescribed expanded band, for
instantiating classifier theorems. -/
def metricasDePrueba (mx mn : ℚ) (serie : List ℚ) : Metricas :=
  { nivel_actual := 0
    nivel_min := 0
    nivel_max := 0
    nivel_medio := 0
    nivel_max_esperado := mx
    nivel_min_esperado := mn
    mae := none
    tendencia := Tendencia.ESTABLE
    serie_prediccion := serie }

/-- A configuration whose high threshold sits exactly at capacity
(`umbral_alto_relativo = 1.0`), allowed by the documented invariant
`drought_ratio < moderate_ratio < high_ratio ≤ 1.0`. -/
def configTope : Config :=
  { umbral_alto_relativo := 1
    umbral_moderado_relativo := 80/100
    umbral_minimo_relativo := 30/100
    horizonte_dias := 7
    k_sigma := 2
    prob_umbral_moderado := 30/100
    prob_umbral_alto := 50/100 }

/-- A one-record station series anchored at day 10. -/
def serieDeUnDia : List Registro :=
  [{ fecha := 10, nivel := some 1, precipitacion := some 0,
     temperatura := some 0, caudal := some 0 }]

/-- Character of a string at position `i` (padding with 'x'), used to
distinguish the error-message families. -/
def caracterEn (i : ℕ) (s : String) : Char := s.data.getD i 'x'

/-! ## Helper lemmas -/

theorem except_bind_error {ε α β : Type} (e : ε) (f : α → Except ε β) :
    (Except.error e >>= f) = Except.error e := rfl

theorem except_bind_ok {ε α β : Type} (a : α) (f : α → Except ε β) :
    (Except.ok a >>= f) = f a := rfl

theorem append_ne_vacio (a b : String) (h : a ≠ "") : a ++ b ≠ "" := by
  intro hc
  apply h
  have hd : a.data ++ b.data = [] := by
    have := congrArg String.data hc
    simpa [String.data_append] using this
  have ha : a.data = [] := (List.append_eq_nil.mp hd).1
  cases a
  simp_all

theorem caracterEn_append (i : ℕ) (a b : String) (h : i < a.data.length) :
    caracterEn i (a ++ b) = caracterEn i a := by
  unfold caracterEn
  rw [String.data_append]
  exact List.getD_append _ _ _ _ h

theorem data_length_append_le (a b : String) :
    a.data.length ≤ (a ++ b).data.length := by
  rw [String.data_append, List.length_append]
  omega

theorem colaN_length {α : Type} (n : ℕ) (l : List α) :
    (colaN n l).length = min n l.length := by
  unfold colaN
  rw [List.length_drop]
  omega

theorem insertarPorFecha_length (r : Registro) (l : List Registro) :
    (insertarPorFecha r l).length = l.length + 1 := by
  induction l with
  | nil => rfl
  | cons s ss ih =>
    by_cases h : r.fecha ≤ s.fecha <;> simp [insertarPorFecha, h, ih]

theorem ordenarPorFecha_length (l : List Registro) :
    (ordenarPorFecha l).length = l.length := by
  induction l with
  | nil => rfl
  | cons r rs ih => simp [ordenarPorFecha, insertarPorFecha_length, ih]

/-! ## Claim theorems -/

/-- C1: `_clasificar_riesgo` evaluates the classes in strict priority
order ALTO (HIGH), then SEQUIA (DROUGHT), then MODERADO (MODERATE), else
BAJO (LOW): each verdict holds exactly when its guard holds and no
earlier guard does, so the four cases partition all inputs (exactly one
level is assigned); in particular when the expanded max reaches the high
threshold AND the expanded min is at or below the drought threshold the
verdict is ALTO and never SEQUIA. -/
theorem clasificar_riesgo_prioridad (m : Metricas) (config : Config) (cap : ℚ) :
    ((clasificar_riesgo m config cap).nivel_riesgo = NivelRiesgo.ALTO ↔
      config.umbral_alto_relativo * cap ≤ m.nivel_max_esperado) ∧
    ((clasificar_riesgo m config cap).nivel_riesgo = NivelRiesgo.SEQUIA ↔
      ¬ config.umbral_alto_relativo * cap ≤ m.nivel_max_esperado ∧
        m.nivel_min_esperado ≤ config.umbral_minimo_relativo * cap) ∧
    ((clasificar_riesgo m config cap).nivel_riesgo = NivelRiesgo.MODERADO ↔
      ¬ config.umbral_alto_relativo * cap ≤ m.nivel_max_esperado ∧
        ¬ m.nivel_min_esperado ≤ config.umbral_minimo_relativo * cap ∧
        config.umbral_moderado_relativo * cap ≤ m.nivel_max_esperado) ∧
    ((clasificar_riesgo m config cap).nivel_riesgo = NivelRiesgo.BAJO ↔
      ¬ config.umbral_alto_relativo * cap ≤ m.nivel_max_esperado ∧
        ¬ m.nivel_min_esperado ≤ config.umbral_minimo_relativo * cap ∧
        ¬ config.umbral_moderado_relativo * cap ≤ m.nivel_max_esperado) ∧
    (config.umbral_alto_relativo * cap ≤ m.nivel_max_esperado →
      m.nivel_min_esperado ≤ config.umbral_minimo_relativo * cap →
      (clasificar_riesgo m config cap).nivel_riesgo = NivelRiesgo.ALTO ∧
        (clasificar_riesgo m config cap).nivel_riesgo ≠ NivelRiesgo.SEQUIA) := by
  simp only [clasificar_riesgo]
  split_ifs with h1 h2 h3 <;> simp_all

/-- Witness for C1 at a concrete input where both the HIGH and the DROUGHT
guards hold simultaneously: the verdict is ALTO, not SEQUIA. -/
theorem clasificar_riesgo_prioridad_caso :
    (clasificar_riesgo (metricasDePrueba 96 10 [96]) configPorDefecto 100).nivel_riesgo
        = NivelRiesgo.ALTO ∧
      (clasificar_riesgo (metricasDePrueba 96 10 [96]) configPorDefecto 100).nivel_riesgo
        ≠ NivelRiesgo.SEQUIA :=
  (clasificar_riesgo_prioridad (metricasDePrueba 96 10 [96]) configPorDefecto
    100).2.2.2.2 (by norm_num [metricasDePrueba, configPorDefecto])
    (by norm_num [metricasDePrueba, configPorDefecto])

/-- C8: the config resolver is total: it returns the station-specific row
when the store has one, and otherwise the hard defaults
high = 0.95, moderate = 0.80, drought = 0.30, horizon = 7 days,
k_sigma = 2.0. -/
theorem obtener_configuracion_total (store : String → Option Config)
    (codigo_saih : String) :
    (∀ cfg, store codigo_saih = some cfg →
      obtener_configuracion_embalse store codigo_saih = cfg) ∧
    (store codigo_saih = none →
      obtener_configuracion_embalse store codigo_saih = configPorDefecto) ∧
    configPorDefecto.umbral_alto_relativo = 95/100 ∧
    configPorDefecto.umbral_moderado_relativo = 80/100 ∧
    configPorDefecto.umbral_minimo_relativo = 30/100 ∧
    configPorDefecto.horizonte_dias = 7 ∧
    configPorDefecto.k_sigma = 2 := by
  refine ⟨?_, ?_, rfl, rfl, rfl, rfl, rfl⟩
  · intro cfg h
    simp [obtener_configuracion_embalse, h]
  · intro h
    simp [obtener_configuracion_embalse, h]

/-- Witness for C8: with an empty store every station resolves to the
hard defaults. -/
theorem obtener_configuracion_total_caso :
    obtener_configuracion_embalse (fun _ => none) "E001" = configPorDefecto :=
  (obtener_configuracion_total (fun _ => none) "E001").2.1 rfl

theorem diasAux_eq_none_iff (direccion : Direccion) (umbral : ℚ) :
    ∀ (l : List ℚ) (k : ℕ), diasAux direccion umbral l k = none ↔
      ∀ v ∈ l, cruza direccion v umbral = false := by
  intro l
  induction l with
  | nil => intro k; simp [diasAux]
  | cons v vs ih =>
    intro k
    by_cases h : cruza direccion v umbral <;> simp [diasAux, h, ih]

theorem diasAux_eq_some_iff (direccion : Direccion) (umbral : ℚ) :
    ∀ (l : List ℚ) (k d : ℕ), diasAux direccion umbral l k = some d ↔
      ∃ i, d = k + i ∧
        (∃ v, l[i]? = some v ∧ cruza direccion v umbral = true) ∧
        ∀ j, j < i → ∀ w, l[j]? = some w → cruza direccion w umbral = false := by
  intro l
  induction l with
  | nil => intro k d; simp [diasAux]
  | cons v vs ih =>
    intro k d
    have hstep : diasAux direccion umbral (v :: vs) k =
        if cruza direccion v umbral then some k
        else diasAux direccion umbral vs (k + 1) := rfl
    rw [hstep]
    cases hb : cruza direccion v umbral
    · rw [if_neg (by decide), ih]
      constructor
      · rintro ⟨i, hd, ⟨w, hw, hcr⟩, hprev⟩
        refine ⟨i + 1, by omega, ⟨w, by simpa using hw, hcr⟩, ?_⟩
        intro j hj u hu
        cases j with
        | zero =>
          simp only [List.getElem?_cons_zero, Option.some.injEq] at hu
          subst hu
          exact hb
        | succ n =>
          exact hprev n (by omega) u (by simpa using hu)
      · rintro ⟨i, hd, ⟨w, hw, hcr⟩, hprev⟩
        cases i with
        | zero =>
          simp only [List.getElem?_cons_zero, Option.some.injEq] at hw
          subst hw
          rw [hb] at hcr
          exact absurd hcr (by decide)
        | succ n =>
          refine ⟨n, by omega, ⟨w, by simpa using hw, hcr⟩, ?_⟩
          intro j hj u hu
          exact hprev (j + 1) (by omega) u (by simpa using hu)
    · rw [if_pos rfl]
      constructor
      · intro he
        have hd : d = k := (Option.some.inj he).symm
        exact ⟨0, by omega, ⟨v, by simp, hb⟩,
          fun j hj => absurd hj (Nat.not_lt_zero j)⟩
      · rintro ⟨i, hd, ⟨w, hw, hcr⟩, hprev⟩
        cases i with
        | zero =>
          exact congrArg some (by omega)
        | succ n =>
          have hv0 := hprev 0 (Nat.succ_pos n) v (by simp)
          rw [hb] at hv0
          exact absurd hv0 (by decide)

/-- C6: `_calcular_dias_hasta_umbral` returns `none` exactly when no
element of the track crosses the threshold, and `some d` exactly when `d`
is the first 1-based position whose value crosses it; the crossing test is
"at or above" for direction `alto` (used for the HIGH and MODERATE
thresholds) and "at or below" for direction `bajo` (used for the DROUGHT
threshold). -/
theorem calcular_dias_hasta_umbral_primero (serie : List ℚ) (umbral : ℚ)
    (direccion : Direccion) :
    (calcular_dias_hasta_umbral serie umbral direccion = none ↔
      ∀ v ∈ serie, cruza direccion v umbral = false) ∧
    (∀ d, calcular_dias_hasta_umbral serie umbral direccion = some d ↔
      1 ≤ d ∧ (∃ v, serie[d - 1]? = some v ∧ cruza direccion v umbral = true) ∧
        ∀ j, j < d - 1 → ∀ w, serie[j]? = some w →
          cruza direccion w umbral = false) ∧
    (∀ v u : ℚ, cruza Direccion.alto v u = true ↔ u ≤ v) ∧
    (∀ v u : ℚ, cruza Direccion.bajo v u = true ↔ v ≤ u) := by
  refine ⟨diasAux_eq_none_iff direccion umbral serie 1, ?_, ?_, ?_⟩
  · intro d
    rw [calcular_dias_hasta_umbral, diasAux_eq_some_iff]
    constructor
    · rintro ⟨i, hd, hv, hprev⟩
      refine ⟨by omega, ?_, ?_⟩
      · have : d - 1 = i := by omega
        rwa [this]
      · intro j hj
        exact hprev j (by omega)
    · rintro ⟨hd, hv, hprev⟩
      exact ⟨d - 1, by omega, hv, fun j hj => hprev j (by omega)⟩
  · intro v u; simp [cruza]
  · intro v u; simp [cruza]

/-- Witness for C6, mirroring the spec's example of a flat track of seven
days at level 10 with a far-above threshold: never crossed, so the result
is absent. -/
theorem calcular_dias_hasta_umbral_caso :
    calcular_dias_hasta_umbral [10, 10, 10, 10, 10, 10, 10] 100
        Direccion.alto = none :=
  (calcular_dias_hasta_umbral_primero [10, 10, 10, 10, 10, 10, 10] 100
    Direccion.alto).1.mpr (by
      intro v hv
      simp only [List.mem_cons, List.not_mem_nil, or_false] at hv
      simp only [cruza, decide_eq_false_iff_not, not_le]
      rcases hv with h | h | h | h | h | h | h <;> rw [h] <;> norm_num)

/-- C2 counterexample: the code anchors the expanded band at the raw max
and min, not at the mean.  On the track `[0, 10]` with MAE 1 and
`k_sigma = 2` the code computes `nivel_max_esperado = 10 + 2·1 = 12`,
while `mean + k_sigma·MAE = 5 + 2·1 = 7`. -/
theorem calcular_metricas_banda_contraejemplo :
    (calcular_metricas_prediccion [0, 10] 5 (some 1) configPorDefecto).map
        Metricas.nivel_max_esperado = some 12 ∧
    (calcular_metricas_prediccion [0, 10] 5 (some 1) configPorDefecto).map
        Metricas.nivel_medio = some 5 ∧
    (12 : ℚ) ≠ 5 + configPorDefecto.k_sigma * 1 := by
  refine ⟨?_, ?_, by norm_num [configPorDefecto]⟩ <;>
    norm_num [calcular_metricas_prediccion, npMax, npMin, npMean,
      configPorDefecto, max_def, min_def]

/-- C2 (amended): for every track with known historical MAE the
uncertainty-expanded band equals `[min − k_sigma·MAE, max + k_sigma·MAE]`
(bounds anchored at the track's raw min and max, not its mean); when MAE
is unknown the band equals the raw min and max of the track. -/
theorem calcular_metricas_banda (pred_serie : List ℚ) (nivel_actual : ℚ)
    (mae : Option ℚ) (config : Config) (m : Metricas)
    (h : calcular_metricas_prediccion pred_serie nivel_actual mae config = some m) :
    (∀ v, mae = some v →
      m.nivel_max_esperado = m.nivel_max + config.k_sigma * v ∧
      m.nivel_min_esperado = m.nivel_min - config.k_sigma * v) ∧
    (mae = none →
      m.nivel_max_esperado = m.nivel_max ∧
      m.nivel_min_esperado = m.nivel_min) := by
  cases pred_serie with
  | nil => simp [calcular_metricas_prediccion] at h
  | cons x xs =>
    cases mae with
    | none =>
      simp only [calcular_metricas_prediccion, Option.some.injEq] at h
      subst h
      exact And.intro (fun v hv => nomatch hv) (fun _ => ⟨rfl, rfl⟩)
    | some v0 =>
      by_cases hv0 : v0 = 0
      · subst hv0
        simp only [calcular_metricas_prediccion, Option.some.injEq,
          if_pos rfl] at h
        subst h
        refine ⟨?_, fun hn => nomatch hn⟩
        rintro v hv
        obtain rfl : (0 : ℚ) = v := Option.some.inj hv
        constructor <;> simp
      · simp only [calcular_metricas_prediccion, Option.some.injEq,
          if_neg hv0] at h
        subst h
        refine ⟨?_, fun hn => nomatch hn⟩
        rintro v hv
        obtain rfl : v0 = v := Option.some.inj hv
        exact ⟨rfl, rfl⟩

/-- Witness for the amended C2 on the track `[0, 10]` with MAE 1. -/
theorem calcular_metricas_banda_caso :
    ∃ m : Metricas,
      calcular_metricas_prediccion [0, 10] 5 (some 1) configPorDefecto = some m ∧
      m.nivel_max_esperado = m.nivel_max + configPorDefecto.k_sigma * 1 := by
  obtain ⟨m, hm⟩ :
      ∃ m, calcular_metricas_prediccion [0, 10] 5 (some 1) configPorDefecto
        = some m := ⟨_, rfl⟩
  exact ⟨m, hm,
    ((calcular_metricas_banda [0, 10] 5 (some 1) configPorDefecto m hm).1 1
      rfl).1⟩

/-- C3 counterexample: the breach probability is the normalized distance
clamped to at most 1, not the raw normalized distance: with capacity 654
and expanded max 700 the verdict is ALTO and the code returns exactly 1,
while the normalized distance `(700 − 621.3)/(654 − 621.3)` exceeds 1. -/
theorem clasificar_probabilidad_contraejemplo :
    (clasificar_riesgo (metricasDePrueba 700 640 [650]) configPorDefecto
        654).nivel_riesgo = NivelRiesgo.ALTO ∧
    (clasificar_riesgo (metricasDePrueba 700 640 [650]) configPorDefecto
        654).probabilidad_superar = 1 ∧
    ((700 : ℚ) - 95/100 * 654) / (654 - 95/100 * 654) ≠ 1 := by
  have h1 : configPorDefecto.umbral_alto_relativo * 654 ≤
      (metricasDePrueba 700 640 [650]).nivel_max_esperado := by
    norm_num [configPorDefecto, metricasDePrueba]
  refine ⟨?_, ?_, by norm_num⟩
  · simp only [clasificar_riesgo]
    rw [if_pos h1]
  · simp only [clasificar_riesgo]
    rw [if_pos h1]
    show min 1 _ = 1
    rw [min_eq_left]
    rw [le_div_iff₀ (by norm_num [divisorAlto, configPorDefecto])]
    norm_num [divisorAlto, configPorDefecto, metricasDePrueba]

/-- C3 (amended): for every non-LOW verdict the breach probability equals
the normalized distance of the expanded bound past its triggering
threshold toward the next threshold — toward full capacity for HIGH,
toward the high threshold for MODERATE, toward zero for DROUGHT — clamped
to at most 1; in particular with capacity 654, expanded max 650 and
high_ratio 0.95 the verdict is HIGH with probability
`(650 − 621.3)/(654 − 621.3) = 287/327 ≈ 0.876` within tolerance 0.002. -/
theorem clasificar_probabilidad_formula :
    (∀ (m : Metricas) (config : Config) (cap : ℚ),
      (config.umbral_alto_relativo * cap ≤ m.nivel_max_esperado →
        (clasificar_riesgo m config cap).probabilidad_superar =
          min 1 ((m.nivel_max_esperado - config.umbral_alto_relativo * cap) /
            (cap - config.umbral_alto_relativo * cap))) ∧
      (¬ config.umbral_alto_relativo * cap ≤ m.nivel_max_esperado →
        m.nivel_min_esperado ≤ config.umbral_minimo_relativo * cap →
        (clasificar_riesgo m config cap).probabilidad_superar =
          min 1 ((config.umbral_minimo_relativo * cap - m.nivel_min_esperado) /
            (config.umbral_minimo_relativo * cap))) ∧
      (¬ config.umbral_alto_relativo * cap ≤ m.nivel_max_esperado →
        ¬ m.nivel_min_esperado ≤ config.umbral_minimo_relativo * cap →
        config.umbral_moderado_relativo * cap ≤ m.nivel_max_esperado →
        (clasificar_riesgo m config cap).probabilidad_superar =
          min 1 ((m.nivel_max_esperado - config.umbral_moderado_relativo * cap) /
            (config.umbral_alto_relativo * cap
              - config.umbral_moderado_relativo * cap)))) ∧
    ((clasificar_riesgo (metricasDePrueba 650 640 [650]) configPorDefecto
        654).nivel_riesgo = NivelRiesgo.ALTO ∧
      (clasificar_riesgo (metricasDePrueba 650 640 [650]) configPorDefecto
        654).probabilidad_superar = (650 - 95/100 * 654) / (654 - 95/100 * 654) ∧
      (650 - (95 : ℚ)/100 * 654) / (654 - 95/100 * 654) = 287/327 ∧
      |(287 : ℚ)/327 - 876/1000| < 2/1000) := by
  constructor
  · intro m config cap
    refine ⟨?_, ?_, ?_⟩
    · intro h1
      simp only [clasificar_riesgo]
      rw [if_pos h1]
      simp [divisorAlto]
    · intro h1 h2
      simp only [clasificar_riesgo]
      rw [if_neg h1, if_pos h2]
      simp [divisorMinimo]
    · intro h1 h2 h3
      simp only [clasificar_riesgo]
      rw [if_neg h1, if_neg h2, if_pos h3]
      simp [divisorModerado]
  · have h1 : configPorDefecto.umbral_alto_relativo * 654 ≤
        (metricasDePrueba 650 640 [650]).nivel_max_esperado := by
      norm_num [configPorDefecto, metricasDePrueba]
    refine ⟨?_, ?_, by norm_num, by rw [abs_sub_lt_iff]; constructor <;> norm_num⟩
    · simp only [clasificar_riesgo]
      rw [if_pos h1]
    · simp only [clasificar_riesgo]
      rw [if_pos h1]
      show min 1 _ = _
      rw [min_eq_right]
      · norm_num [divisorAlto, configPorDefecto, metricasDePrueba]
      · rw [div_le_one] <;>
          norm_num [divisorAlto, configPorDefecto, metricasDePrueba]

/-- Witness for the amended C3, instantiating the HIGH branch at the
spec's example (capacity 654, expanded max 650). -/
theorem clasificar_probabilidad_formula_caso :
    (clasificar_riesgo (metricasDePrueba 650 640 [650]) configPorDefecto
        654).probabilidad_superar =
      min 1 (((metricasDePrueba 650 640 [650]).nivel_max_esperado
          - configPorDefecto.umbral_alto_relativo * 654) /
        (654 - configPorDefecto.umbral_alto_relativo * 654)) :=
  (clasificar_probabilidad_formula.1 (metricasDePrueba 650 640 [650])
    configPorDefecto 654).1 (by norm_num [metricasDePrueba, configPorDefecto])

/-- C10 counterexample: the documented invariant allows
`high_ratio = 1.0`, and there the HIGH-branch divisor
`nivel_maximo - umbral_alto` is zero (the Python division would raise
`ZeroDivisionError`), so the divisors are not all nonzero on the full
invariant range. -/
theorem divisor_alto_contraejemplo :
    (0 < configTope.umbral_minimo_relativo ∧
      configTope.umbral_minimo_relativo < configTope.umbral_moderado_relativo ∧
      configTope.umbral_moderado_relativo < configTope.umbral_alto_relativo ∧
      configTope.umbral_alto_relativo ≤ 1 ∧ (0 : ℚ) < 654) ∧
    divisorAlto configTope 654 = 0 := by
  norm_num [configTope, divisorAlto]

/-- C10 (amended): for every ThresholdConfig satisfying
`0 < drought_ratio < moderate_ratio < high_ratio` with `high_ratio`
strictly below 1 and every positive capacity, the three divisors of the
breach-probability computation are nonzero and the clamped probability
returned by the classifier lies in [0, 1]; at `high_ratio = 1` the
HIGH-branch divisor is zero (see the counterexample). -/
theorem divisores_no_nulos (config : Config) (cap : ℚ)
    (h0 : 0 < config.umbral_minimo_relativo)
    (h1 : config.umbral_minimo_relativo < config.umbral_moderado_relativo)
    (h2 : config.umbral_moderado_relativo < config.umbral_alto_relativo)
    (h3 : config.umbral_alto_relativo < 1)
    (hc : 0 < cap) :
    divisorAlto config cap ≠ 0 ∧ divisorModerado config cap ≠ 0 ∧
    divisorMinimo config cap ≠ 0 ∧
    ∀ m : Metricas,
      0 ≤ (clasificar_riesgo m config cap).probabilidad_superar ∧
      (clasificar_riesgo m config cap).probabilidad_superar ≤ 1 := by
  have hA : 0 < divisorAlto config cap := by
    have hp := mul_pos hc (sub_pos.mpr h3)
    unfold divisorAlto
    nlinarith
  have hM : 0 < divisorModerado config cap := by
    have hp := mul_pos (sub_pos.mpr h2) hc
    unfold divisorModerado
    nlinarith
  have hm : 0 < divisorMinimo config cap := by
    unfold divisorMinimo
    exact mul_pos h0 hc
  refine ⟨ne_of_gt hA, ne_of_gt hM, ne_of_gt hm, ?_⟩
  intro m
  simp only [clasificar_riesgo]
  split_ifs with hg1 hg2 hg3
  · exact ⟨le_min (by norm_num) (div_nonneg (sub_nonneg.mpr hg1) hA.le),
      min_le_left _ _⟩
  · exact ⟨le_min (by norm_num) (div_nonneg (sub_nonneg.mpr hg2) hm.le),
      min_le_left _ _⟩
  · exact ⟨le_min (by norm_num) (div_nonneg (sub_nonneg.mpr hg3) hM.le),
      min_le_left _ _⟩
  · exact ⟨le_refl 0, by norm_num⟩

/-- Witness for the amended C10 at the default configuration and
capacity 654. -/
theorem divisores_no_nulos_caso :
    divisorAlto configPorDefecto 654 ≠ 0 ∧
    divisorModerado configPorDefecto 654 ≠ 0 ∧
    divisorMinimo configPorDefecto 654 ≠ 0 ∧
    ∀ m : Metricas,
      0 ≤ (clasificar_riesgo m configPorDefecto 654).probabilidad_superar ∧
      (clasificar_riesgo m configPorDefecto 654).probabilidad_superar ≤ 1 :=
  divisores_no_nulos configPorDefecto 654 (by norm_num [configPorDefecto])
    (by norm_num [configPorDefecto]) (by norm_num [configPorDefecto])
    (by norm_num [configPorDefecto]) (by norm_num)

/-- C9: with an empty template store the fallback composer produces
non-empty motive and action texts for every one of the four risk levels,
and the action texts of distinct levels are pairwise distinct (each is the
level's own canned recommendation). -/
theorem textos_basicos_completos :
    ∀ (nivel : NivelRiesgo) (m : Metricas) (cap : ℚ) (horizonte : ℕ)
      (pct : ℚ),
      (generar_textos_basicos nivel m cap horizonte pct).1 ≠ "" ∧
      (generar_textos_basicos nivel m cap horizonte pct).2 ≠ "" ∧
      ∀ nivel2, nivel ≠ nivel2 →
        (generar_textos_basicos nivel m cap horizonte pct).2 ≠
          (generar_textos_basicos nivel2 m cap horizonte pct).2 := by
  intro nivel m cap horizonte pct
  refine ⟨?_, ?_, fun nivel2 hne => ?_⟩
  · cases nivel <;> simp only [generar_textos_basicos] <;>
      (repeat' apply append_ne_vacio) <;> decide
  · cases nivel <;> dsimp only [generar_textos_basicos] <;> decide
  · cases nivel <;> cases nivel2 <;>
      first
        | exact absurd rfl hne
        | (dsimp only [generar_textos_basicos]; decide)

/-- C4: when fewer than `horizonte` records exist after the anchor, the
operational-mode window equals the historical-mode window on the same
inputs (both fall back to the all-zero future summary). -/
theorem ventana_operacional_degradada (df_est : List Registro) (fecha : ℤ)
    (sc : Escalador) (horizonte lookback : ℕ) (ruido : ℕ → ℕ → ℚ)
    (h : (df_est.filter (fun r => fecha < r.fecha)).length < horizonte) :
    construir_ventana df_est fecha sc Modo.aemet_ruido horizonte lookback
        ruido =
      construir_ventana df_est fecha sc Modo.hist horizonte lookback ruido := by
  have hcond : ¬ horizonte ≤
      ((ordenarPorFecha (df_est.filter (fun r => fecha < r.fecha))).take
        horizonte).length := by
    rw [List.length_take, ordenarPorFecha_length]
    omega
  simp only [construir_ventana]
  rw [if_neg hcond]

/-- Witness for C4: a one-record series anchored on its only day has no
future records, and both scenario windows coincide. -/
theorem ventana_operacional_degradada_caso :
    (serieDeUnDia.filter (fun r => (10 : ℤ) < r.fecha)).length < 3 ∧
    construir_ventana serieDeUnDia 10
        { data_min := [0, 0, 0, 0], data_max := [2, 2, 2, 2] }
        Modo.aemet_ruido 3 1 (fun _ _ => 1) =
      construir_ventana serieDeUnDia 10
        { data_min := [0, 0, 0, 0], data_max := [2, 2, 2, 2] }
        Modo.hist 3 1 (fun _ _ => 1) :=
  ⟨by decide,
    ventana_operacional_degradada serieDeUnDia 10
      { data_min := [0, 0, 0, 0], data_max := [2, 2, 2, 2] } 3 1
      (fun _ _ => 1) (by decide)⟩

theorem caracterEn_sin_0 (c : String) :
    caracterEn 0 (mensajeSinEscalador c) = ('N' : Char) := by
  unfold mensajeSinEscalador
  rw [caracterEn_append _ _ _ (by decide)]
  decide

theorem caracterEn_sin_8 (c : String) :
    caracterEn 8 (mensajeSinEscalador c) = ('c' : Char) := by
  unfold mensajeSinEscalador
  rw [caracterEn_append _ _ _ (by decide)]
  decide

theorem caracterEn_fecha_0 (f mv : ℤ) :
    caracterEn 0 (mensajeFechaTemprana f mv) = ('F' : Char) := by
  unfold mensajeFechaTemprana
  have h1 : (0 : ℕ) < (("Fecha " : String)).data.length := by decide
  have h2 : (0 : ℕ) < (("Fecha " : String) ++ toString f).data.length :=
    lt_of_lt_of_le h1 (data_length_append_le _ _)
  have h3 : (0 : ℕ) <
      ((("Fecha " : String) ++ toString f)
        ++ " es demasiado temprana. Primera fecha valida: ").data.length :=
    lt_of_lt_of_le h2 (data_length_append_le _ _)
  rw [caracterEn_append _ _ _ h3, caracterEn_append _ _ _ h2,
    caracterEn_append _ _ _ h1]
  decide

theorem caracterEn_hist_0 (f : ℤ) (l n : ℕ) :
    caracterEn 0 (mensajeHistInsuficiente f l n) = ('N' : Char) := by
  unfold mensajeHistInsuficiente
  have h1 : (0 : ℕ) <
      (("No hay suficientes datos previos a " : String)).data.length := by
    decide
  have h2 := lt_of_lt_of_le h1 (data_length_append_le
    ("No hay suficientes datos previos a " : String) (toString f))
  have h3 := lt_of_lt_of_le h2 (data_length_append_le _
    (". Se requieren " : String))
  have h4 := lt_of_lt_of_le h3 (data_length_append_le _ (toString l))
  have h5 := lt_of_lt_of_le h4 (data_length_append_le _
    (" dias, solo hay " : String))
  rw [caracterEn_append _ _ _ h5, caracterEn_append _ _ _ h4,
    caracterEn_append _ _ _ h3, caracterEn_append _ _ _ h2,
    caracterEn_append _ _ _ h1]
  decide

theorem caracterEn_hist_8 (f : ℤ) (l n : ℕ) :
    caracterEn 8 (mensajeHistInsuficiente f l n) = ('u' : Char) := by
  unfold mensajeHistInsuficiente
  have h1 : (8 : ℕ) <
      (("No hay suficientes datos previos a " : String)).data.length := by
    decide
  have h2 := lt_of_lt_of_le h1 (data_length_append_le
    ("No hay suficientes datos previos a " : String) (toString f))
  have h3 := lt_of_lt_of_le h2 (data_length_append_le _
    (". Se requieren " : String))
  have h4 := lt_of_lt_of_le h3 (data_length_append_le _ (toString l))
  have h5 := lt_of_lt_of_le h4 (data_length_append_le _
    (" dias, solo hay " : String))
  rw [caracterEn_append _ _ _ h5, caracterEn_append _ _ _ h4,
    caracterEn_append _ _ _ h3, caracterEn_append _ _ _ h2,
    caracterEn_append _ _ _ h1]
  decide

theorem mensajeSin_ne_fecha (c : String) (f mv : ℤ) :
    mensajeSinEscalador c ≠ mensajeFechaTemprana f mv := by
  intro he
  have h0 := congrArg (caracterEn 0) he
  rw [caracterEn_sin_0, caracterEn_fecha_0] at h0
  exact absurd h0 (by decide)

theorem mensajeSin_ne_hist (c : String) (f : ℤ) (l n : ℕ) :
    mensajeSinEscalador c ≠ mensajeHistInsuficiente f l n := by
  intro he
  have h8 := congrArg (caracterEn 8) he
  rw [caracterEn_sin_8, caracterEn_hist_8] at h8
  exact absurd h8 (by decide)

theorem mensajeFecha_ne_hist (f mv f2 : ℤ) (l n : ℕ) :
    mensajeFechaTemprana f mv ≠ mensajeHistInsuficiente f2 l n := by
  intro he
  have h0 := congrArg (caracterEn 0) he
  rw [caracterEn_fecha_0, caracterEn_hist_0] at h0
  exact absurd h0 (by decide)

theorem construir_ventana_insuficiente (df_est : List Registro) (fecha : ℤ)
    (sc : Escalador) (modo : Modo) (horizonte lookback : ℕ)
    (ruido : ℕ → ℕ → ℚ)
    (h : (colaN lookback (df_est.filter (fun r => r.fecha ≤ fecha))).length
      < lookback) :
    construir_ventana df_est fecha sc modo horizonte lookback ruido =
      Except.error (mensajeHistInsuficiente fecha lookback
        (colaN lookback (df_est.filter (fun r => r.fecha ≤ fecha))).length) := by
  simp only [construir_ventana]
  rw [if_pos h]

theorem construir_ventana_exito (df_est : List Registro) (fecha : ℤ)
    (sc : Escalador) (modo : Modo) (horizonte lookback : ℕ)
    (ruido : ℕ → ℕ → ℚ)
    (h : ¬ (colaN lookback (df_est.filter (fun r => r.fecha ≤ fecha))).length
      < lookback) :
    ∃ w, construir_ventana df_est fecha sc modo horizonte lookback ruido =
      Except.ok w := by
  simp only [construir_ventana]
  rw [if_neg h]
  exact ⟨_, rfl⟩

theorem predecirNucleo_insuficiente (modelo : List (List ℚ) → List ℚ)
    (sc : Escalador) (df_est : List Registro) (fecha : ℤ)
    (horizonte lookback : ℕ) (ruido : ℕ → ℕ → ℚ)
    (h : (colaN lookback (df_est.filter (fun r => r.fecha ≤ fecha))).length
      < lookback) :
    predecirNucleo modelo sc df_est fecha horizonte lookback ruido =
      Except.error (mensajeHistInsuficiente fecha lookback
        (colaN lookback (df_est.filter (fun r => r.fecha ≤ fecha))).length) := by
  unfold predecirNucleo
  rw [construir_ventana_insuficiente df_est fecha sc Modo.hist horizonte
    lookback ruido h]
  rfl

theorem predecirNucleo_exito (modelo : List (List ℚ) → List ℚ)
    (sc : Escalador) (df_est : List Registro) (fecha : ℤ)
    (horizonte lookback : ℕ) (ruido : ℕ → ℕ → ℚ)
    (h : ¬ (colaN lookback (df_est.filter (fun r => r.fecha ≤ fecha))).length
      < lookback) :
    ∃ r, predecirNucleo modelo sc df_est fecha horizonte lookback ruido =
      Except.ok r := by
  obtain ⟨w1, hw1⟩ := construir_ventana_exito df_est fecha sc Modo.hist
    horizonte lookback ruido h
  obtain ⟨w2, hw2⟩ := construir_ventana_exito df_est fecha sc Modo.aemet_ruido
    horizonte lookback ruido h
  simp only [predecirNucleo, hw1, hw2, except_bind_ok]
  exact ⟨_, rfl⟩

/-- C5 counterexample: the failure conditions are checked in a fixed
order, so "fails with InsufficientHistory exactly when fewer than L
records have date ≤ anchor" is false: on a one-record series with
lookback 2 (fewer than L records at or before the anchor) but no scaler,
the call fails with the UnknownStation message, which differs from the
InsufficientHistory message. -/
theorem predecir_errores_contraejemplo :
    (serieDeUnDia.filter (fun r => r.fecha ≤ (10 : ℤ))).length < 2 ∧
    predecir_embalse (fun _ => []) (fun _ => none) serieDeUnDia "X" 10 7 2
        (fun _ _ => 0) =
      Except.error (mensajeSinEscalador "X") ∧
    mensajeSinEscalador "X" ≠ mensajeHistInsuficiente 10 2 1 :=
  ⟨by decide, rfl, mensajeSin_ne_hist "X" 10 2 1⟩

/-- C5 (amended): the forecasting core surfaces its three failure
conditions in priority order, each with its own message: it fails with
the UnknownStation message exactly when no scaler exists; otherwise with
the DateTooEarly message exactly when the anchor precedes the earliest
record plus L; otherwise with the InsufficientHistory message exactly
when fewer than L records have date ≤ anchor; otherwise it succeeds.  The
three messages are pairwise distinct for all parameter values, so the
caller can distinguish the conditions (in the Python all three are
`ValueError`s distinguishable only by their message text). -/
theorem predecir_embalse_errores (modelo : List (List ℚ) → List ℚ)
    (escaladores : String → Option Escalador) (df_est : List Registro)
    (codigo_saih : String) (fecha : ℤ) (horizonte lookback : ℕ)
    (ruido : ℕ → ℕ → ℚ) :
    (escaladores codigo_saih = none →
      predecir_embalse modelo escaladores df_est codigo_saih fecha horizonte
          lookback ruido =
        Except.error (mensajeSinEscalador codigo_saih)) ∧
    (∀ m0, escaladores codigo_saih ≠ none → fechaMinima df_est = some m0 →
      fecha < m0 + lookback →
      predecir_embalse modelo escaladores df_est codigo_saih fecha horizonte
          lookback ruido =
        Except.error (mensajeFechaTemprana fecha (m0 + lookback))) ∧
    (escaladores codigo_saih ≠ none →
      (∀ m0, fechaMinima df_est = some m0 → ¬ fecha < m0 + lookback) →
      (df_est.filter (fun r => r.fecha ≤ fecha)).length < lookback →
      predecir_embalse modelo escaladores df_est codigo_saih fecha horizonte
          lookback ruido =
        Except.error (mensajeHistInsuficiente fecha lookback
          (df_est.filter (fun r => r.fecha ≤ fecha)).length)) ∧
    (escaladores codigo_saih ≠ none →
      (∀ m0, fechaMinima df_est = some m0 → ¬ fecha < m0 + lookback) →
      ¬ (df_est.filter (fun r => r.fecha ≤ fecha)).length < lookback →
      ∃ r, predecir_embalse modelo escaladores df_est codigo_saih fecha
        horizonte lookback ruido = Except.ok r) ∧
    (∀ (c : String) (f mv : ℤ), mensajeSinEscalador c ≠
      mensajeFechaTemprana f mv) ∧
    (∀ (c : String) (f : ℤ) (l n : ℕ), mensajeSinEscalador c ≠
      mensajeHistInsuficiente f l n) ∧
    (∀ (f mv f2 : ℤ) (l n : ℕ), mensajeFechaTemprana f mv ≠
      mensajeHistInsuficiente f2 l n) := by
  refine ⟨?_, ?_, ?_, ?_, mensajeSin_ne_fecha, mensajeSin_ne_hist,
    mensajeFecha_ne_hist⟩
  · intro hA
    simp only [predecir_embalse, hA]
  · intro m0 hA hmin hlt
    obtain ⟨sc, hsc⟩ := Option.ne_none_iff_exists'.mp hA
    simp only [predecir_embalse, hsc, hmin]
    rw [if_pos hlt]
  · intro hA hnz hcount
    obtain ⟨sc, hsc⟩ := Option.ne_none_iff_exists'.mp hA
    have hcola : (colaN lookback
        (df_est.filter (fun r => r.fecha ≤ fecha))).length < lookback := by
      rw [colaN_length]
      omega
    have hmsg : (colaN lookback
        (df_est.filter (fun r => r.fecha ≤ fecha))).length =
        (df_est.filter (fun r => r.fecha ≤ fecha)).length := by
      rw [colaN_length]
      omega
    cases hmin : fechaMinima df_est with
    | none =>
      simp only [predecir_embalse, hsc, hmin]
      rw [predecirNucleo_insuficiente modelo sc df_est fecha horizonte
        lookback ruido hcola, hmsg]
    | some m0 =>
      have hnlt := hnz m0 hmin
      simp only [predecir_embalse, hsc, hmin]
      rw [if_neg hnlt, predecirNucleo_insuficiente modelo sc df_est fecha
        horizonte lookback ruido hcola, hmsg]
  · intro hA hnz hcount
    obtain ⟨sc, hsc⟩ := Option.ne_none_iff_exists'.mp hA
    have hcola : ¬ (colaN lookback
        (df_est.filter (fun r => r.fecha ≤ fecha))).length < lookback := by
      rw [colaN_length]
      omega
    obtain ⟨r, hr⟩ := predecirNucleo_exito modelo sc df_est fecha horizonte
      lookback ruido hcola
    cases hmin : fechaMinima df_est with
    | none =>
      refine ⟨r, ?_⟩
      simp only [predecir_embalse, hsc, hmin]
      exact hr
    | some m0 =>
      have hnlt := hnz m0 hmin
      refine ⟨r, ?_⟩
      simp only [predecir_embalse, hsc, hmin]
      rw [if_neg hnlt]
      exact hr

/-- Witness for the amended C5: with no scaler registered the call fails
with the UnknownStation message. -/
theorem predecir_embalse_errores_caso :
    predecir_embalse (fun _ => []) (fun _ => none) [] "E001" 0 1 1
        (fun _ _ => 0) =
      Except.error (mensajeSinEscalador "E001") :=
  (predecir_embalse_errores (fun _ => []) (fun _ => none) [] "E001" 0 1 1
    (fun _ _ => 0)).1 rfl

theorem construir_hist_ruido (df_est : List Registro) (fecha : ℤ)
    (sc : Escalador) (horizonte lookback : ℕ) (ruido ruido2 : ℕ → ℕ → ℚ) :
    construir_ventana df_est fecha sc Modo.hist horizonte lookback ruido =
      construir_ventana df_est fecha sc Modo.hist horizonte lookback ruido2 :=
  rfl

theorem predecirNucleo_ruido (modelo : List (List ℚ) → List ℚ)
    (sc : Escalador) (df_est : List Registro) (fecha : ℤ)
    (horizonte lookback : ℕ) (ruido ruido2 : ℕ → ℕ → ℚ) :
    Except.map ResultadoPrediccion.pred_hist
        (predecirNucleo modelo sc df_est fecha horizonte lookback ruido) =
      Except.map ResultadoPrediccion.pred_hist
        (predecirNucleo modelo sc df_est fecha horizonte lookback ruido2) ∧
    Except.map ResultadoPrediccion.fechas
        (predecirNucleo modelo sc df_est fecha horizonte lookback ruido) =
      Except.map ResultadoPrediccion.fechas
        (predecirNucleo modelo sc df_est fecha horizonte lookback ruido2) ∧
    Except.map ResultadoPrediccion.nivel_real
        (predecirNucleo modelo sc df_est fecha horizonte lookback ruido) =
      Except.map ResultadoPrediccion.nivel_real
        (predecirNucleo modelo sc df_est fecha horizonte lookback ruido2) := by
  by_cases h : (colaN lookback
      (df_est.filter (fun r => r.fecha ≤ fecha))).length < lookback
  · rw [predecirNucleo_insuficiente modelo sc df_est fecha horizonte lookback
      ruido h, predecirNucleo_insuficiente modelo sc df_est fecha horizonte
      lookback ruido2 h]
    exact ⟨rfl, rfl, rfl⟩
  · obtain ⟨w1, hw1⟩ := construir_ventana_exito df_est fecha sc Modo.hist
      horizonte lookback ruido h
    have hw1b : construir_ventana df_est fecha sc Modo.hist horizonte lookback
        ruido2 = Except.ok w1 :=
      (construir_hist_ruido df_est fecha sc horizonte lookback ruido2
        ruido).trans hw1
    obtain ⟨w2, hw2⟩ := construir_ventana_exito df_est fecha sc
      Modo.aemet_ruido horizonte lookback ruido h
    obtain ⟨w3, hw3⟩ := construir_ventana_exito df_est fecha sc
      Modo.aemet_ruido horizonte lookback ruido2 h
    simp only [predecirNucleo, hw1, hw1b, hw2, hw3, except_bind_ok]
    exact ⟨rfl, rfl, rfl⟩

theorem predecir_embalse_ruido {β : Type} (f : ResultadoPrediccion → β)
    (modelo : List (List ℚ) → List ℚ)
    (escaladores : String → Option Escalador) (df_est : List Registro)
    (codigo_saih : String) (fecha : ℤ) (horizonte lookback : ℕ)
    (ruido ruido2 : ℕ → ℕ → ℚ)
    (hf : ∀ sc : Escalador,
      Except.map f (predecirNucleo modelo sc df_est fecha horizonte lookback
        ruido) =
      Except.map f (predecirNucleo modelo sc df_est fecha horizonte lookback
        ruido2)) :
    Except.map f (predecir_embalse modelo escaladores df_est codigo_saih fecha
        horizonte lookback ruido) =
      Except.map f (predecir_embalse modelo escaladores df_est codigo_saih
        fecha horizonte lookback ruido2) := by
  cases hA : escaladores codigo_saih with
  | none => simp only [predecir_embalse, hA]
  | some sc =>
    cases hmin : fechaMinima df_est with
    | none =>
      simp only [predecir_embalse, hA, hmin]
      exact hf sc
    | some m0 =>
      simp only [predecir_embalse, hA, hmin]
      by_cases hlt : fecha < m0 + lookback
      · rw [if_pos hlt, if_pos hlt]
      · rw [if_neg hlt, if_neg hlt]
        exact hf sc

/-- C7: the embedded engine threads the noise stream explicitly (the
draws of `np.random.normal` are a function of the generator's seed), so
with a fixed noise stream two calls on identical inputs are the same pure
application and produce bit-identical tracks for both scenarios;
moreover the noise is the only input whose variation can affect the
output: the historical-scenario window, the historical track, the date
axis and the observed levels are all invariant under changing the noise
stream, so the noise injection in the window builder is the only
nondeterministic element. -/
theorem prediccion_determinista (modelo : List (List ℚ) → List ℚ)
    (escaladores : String → Option Escalador) (df_est : List Registro)
    (codigo_saih : String) (fecha : ℤ) (horizonte lookback : ℕ)
    (ruido ruido2 : ℕ → ℕ → ℚ) :
    predecir_embalse modelo escaladores df_est codigo_saih fecha horizonte
        lookback ruido =
      predecir_embalse modelo escaladores df_est codigo_saih fecha horizonte
        lookback ruido ∧
    (∀ sc : Escalador,
      construir_ventana df_est fecha sc Modo.hist horizonte lookback ruido =
        construir_ventana df_est fecha sc Modo.hist horizonte lookback
          ruido2) ∧
    Except.map ResultadoPrediccion.pred_hist
        (predecir_embalse modelo escaladores df_est codigo_saih fecha
          horizonte lookback ruido) =
      Except.map ResultadoPrediccion.pred_hist
        (predecir_embalse modelo escaladores df_est codigo_saih fecha
          horizonte lookback ruido2) ∧
    Except.map ResultadoPrediccion.fechas
        (predecir_embalse modelo escaladores df_est codigo_saih fecha
          horizonte lookback ruido) =
      Except.map ResultadoPrediccion.fechas
        (predecir_embalse modelo escaladores df_est codigo_saih fecha
          horizonte lookback ruido2) ∧
    Except.map ResultadoPrediccion.nivel_real
        (predecir_embalse modelo escaladores df_est codigo_saih fecha
          horizonte lookback ruido) =
      Except.map ResultadoPrediccion.nivel_real
        (predecir_embalse modelo escaladores df_est codigo_saih fecha
          horizonte lookback ruido2) :=
  ⟨rfl,
    fun sc => construir_hist_ruido df_est fecha sc horizonte lookback ruido
      ruido2,
    predecir_embalse_ruido ResultadoPrediccion.pred_hist modelo escaladores
      df_est codigo_saih fecha horizonte lookback ruido ruido2
      (fun sc => (predecirNucleo_ruido modelo sc df_est fecha horizonte
        lookback ruido ruido2).1),
    predecir_embalse_ruido ResultadoPrediccion.fechas modelo escaladores
      df_est codigo_saih fecha horizonte lookback ruido ruido2
      (fun sc => (predecirNucleo_ruido modelo sc df_est fecha horizonte
        lookback ruido ruido2).2.1),
    predecir_embalse_ruido ResultadoPrediccion.nivel_real modelo escaladores
      df_est codigo_saih fecha horizonte lookback ruido ruido2
      (fun sc => (predecirNucleo_ruido modelo sc df_est fecha horizonte
        lookback ruido ruido2).2.2)⟩

/-- Witness for C9 at a concrete input: the ALTO fallback motive is
non-empty and its action text differs from the SEQUIA one. -/
theorem textos_basicos_completos_caso :
    (generar_textos_basicos NivelRiesgo.ALTO (metricasDePrueba 0 0 []) 100 7
        50).1 ≠ "" ∧
    (generar_textos_basicos NivelRiesgo.ALTO (metricasDePrueba 0 0 []) 100 7
        50).2 ≠
      (generar_textos_basicos NivelRiesgo.SEQUIA (metricasDePrueba 0 0 []) 100
        7 50).2 :=
  ⟨(textos_basicos_completos NivelRiesgo.ALTO (metricasDePrueba 0 0 []) 100 7
      50).1,
    (textos_basicos_completos NivelRiesgo.ALTO (metricasDePrueba 0 0 []) 100 7
      50).2.2 NivelRiesgo.SEQUIA (by decide)⟩

end Aquaia
